import Mathlib

/-!
Shallow embedding of the nelson-rule engine from `nelson/nelson.go` of the
jshaughn/outlier repository.

Modelling conventions:
* Go `float64` values are modelled as real numbers (`ℝ`); the engine's
  arithmetic (mean, standard deviation, threshold comparisons) is treated as
  exact real arithmetic.
* Go `int` counters are modelled as `ℤ` (they can go negative for rules 2/3).
* `container/list.List` front-push lists are modelled as Lean lists whose head
  is the front; `PushFront` is `cons` and `Remove(Back())` is `dropLast`.
* `map[string]int` (the `Violations` tally) is modelled as a total function
  `String → ℕ` defaulting to 0, exactly the observable behaviour of a Go map
  read with the zero value; insertion is `Function.update`.
* `map[string]bool` (the per-sample result map) is modelled as the association
  list of `(Name, bool)` pairs in rule-iteration order; a `nil` map return is
  `Option.none`.
* Pointer-valued previous-sample fields (`*float64`) are `Option ℝ`.
* The `Metric interface{}` identity is modelled as an opaque `String`.
* Rule values (Go's `Rule` struct of name, description and method value) are
  modelled as a tagged enumeration `RuleId` with `name`/`description` tables
  and an `evalRule` dispatcher, preserving "always evaluate every active rule,
  in fixed list order".
-/

namespace Nelson

/-- A sample: unix time in ms paired with a float value (`Sample` interface). -/
structure Sample where
  time : Int
  val : ℝ

/-- Tags for the eight catalogued rules (Go's `Rule1` .. `Rule8` values). -/
inductive RuleId where
  | rule1
  | rule2
  | rule3
  | rule4
  | rule5
  | rule6
  | rule7
  | rule8
deriving DecidableEq

/-- The `Name` field of each catalogued rule. -/
def RuleId.name : RuleId → String
  | .rule1 => "Rule1"
  | .rule2 => "Rule2"
  | .rule3 => "Rule3"
  | .rule4 => "Rule4"
  | .rule5 => "Rule5"
  | .rule6 => "Rule6"
  | .rule7 => "Rule7"
  | .rule8 => "Rule8"

/-- The `Description` field of each catalogued rule. -/
def RuleId.description : RuleId → String
  | .rule1 => "One point is more than 3 standard deviations from the mean."
  | .rule2 => "Nine (or more) points in a row are on the same side of the mean."
  | .rule3 => "Six (or more) points in a row are continually increasing (or decreasing)."
  | .rule4 => "Fourteen (or more) points in a row alternate in direction, increasing then decreasing."
  | .rule5 => "At least 2 of 3 points in a row are > 2 standard deviations from the mean in the same direction."
  | .rule6 => "At least 4 of 5 points in a row are > 1 standard deviation from the mean in the same direction."
  | .rule7 => "Fifteen points in a row are all within 1 standard deviation of the mean on either side of the mean."
  | .rule8 => "Eight points in a row exist, but none within 1 standard deviation of the mean and the points are in both directions from the mean."

/-- `AllRules` catalog (default rule set). -/
def AllRules : List RuleId :=
  [.rule1, .rule2, .rule3, .rule4, .rule5, .rule6, .rule7, .rule8]

/-- `CommonRules`: all rules other than Rule7. -/
def CommonRules : List RuleId :=
  [.rule1, .rule2, .rule3, .rule4, .rule5, .rule6, .rule8]

/-- `MaxSamples`: max number of samples needed to evaluate any rule. -/
def MaxSamples : ℕ := 15

/-- The `statistics` baseline component. -/
structure statistics where
  ready : Bool
  sampleSize : ℕ
  numSamples : ℕ
  values : List ℝ
  mean : ℝ
  standardDeviation : ℝ
  twoDeviations : ℝ
  threeDeviations : ℝ

/-- `gonum stat.Mean(x, nil)`: arithmetic mean. -/
noncomputable def statMean (xs : List ℝ) : ℝ := xs.sum / xs.length

/-- `gonum stat.StdDev(x, nil)`: sample standard deviation (n-1 divisor). -/
noncomputable def statStdDev (xs : List ℝ) : ℝ :=
  Real.sqrt ((xs.map (fun x => (x - statMean xs) ^ 2)).sum / ((xs.length : ℝ) - 1))

/-- `newStatistics(sampleSize)`: zeroed statistics with an allocated buffer. -/
def newStatistics (sampleSize : ℕ) : statistics :=
  { ready := false
    sampleSize := sampleSize
    numSamples := 0
    values := List.replicate sampleSize 0
    mean := 0
    standardDeviation := 0
    twoDeviations := 0
    threeDeviations := 0 }

/-- `statistics.clear()`. Note: faithful to the source, the `ready` flag is
NOT reset here. -/
def statistics.clear (s : statistics) : statistics :=
  { s with
    numSamples := 0
    values := List.replicate s.sampleSize 0
    mean := 0
    standardDeviation := 0
    twoDeviations := 0
    threeDeviations := 0 }

/-- `statistics.addSample`: returns the updated state and the `ready` flag.
Values added after stats are ready are ignored. -/
noncomputable def statistics.addSample (s : statistics) (v : ℝ) : statistics × Bool :=
  if s.ready then (s, s.ready)
  else
    let values := s.values.set s.numSamples v
    let numSamples := s.numSamples + 1
    if numSamples = s.sampleSize then
      let m := statMean values
      let sd := statStdDev values
      ({ s with
          values := values
          numSamples := numSamples
          mean := m
          standardDeviation := sd
          twoDeviations := 2 * sd
          threeDeviations := 3 * sd
          ready := true }, true)
    else
      ({ s with values := values, numSamples := numSamples }, false)

/-- The `Data` series evaluator: baseline, per-rule state, bounded recent
sample window, and cumulative violation tally. -/
structure Data where
  Metric : String
  Violations : String → ℕ
  ViolationsData : List Sample
  Rules : List RuleId
  stats : statistics
  rule2Count : ℤ
  rule3Count : ℤ
  rule3PreviousSample : Option ℝ
  rule4Count : ℤ
  rule4PreviousSample : Option ℝ
  rule4PreviousDirection : String
  rule5LastThree : List String
  rule6LastFive : List String
  rule7Count : ℤ
  rule8Count : ℤ

/-- `NewData(m, sampleSize, rules...)`; a `none` rule list (Go `nil` variadic)
selects `AllRules`. -/
def NewData (m : String) (sampleSize : ℕ) (rules : Option (List RuleId)) : Data :=
  { Metric := m
    Violations := fun _ => 0
    ViolationsData := []
    Rules := rules.getD AllRules
    stats := newStatistics sampleSize
    rule2Count := 0
    rule3Count := 0
    rule3PreviousSample := none
    rule4Count := 0
    rule4PreviousSample := none
    rule4PreviousDirection := ""
    rule5LastThree := []
    rule6LastFive := []
    rule7Count := 0
    rule8Count := 0 }

/-- `Data.Clear()`: resets tally, window and all rule state; the baseline is
reset through `statistics.clear` (which keeps `ready` as-is, see above). -/
def Data.Clear (d : Data) : Data :=
  { d with
    stats := d.stats.clear
    Violations := fun _ => 0
    ViolationsData := []
    rule2Count := 0
    rule3Count := 0
    rule3PreviousSample := none
    rule4Count := 0
    rule4PreviousSample := none
    rule4PreviousDirection := ""
    rule5LastThree := []
    rule6LastFive := []
    rule7Count := 0
    rule8Count := 0 }

/-- `Data.hasViolations()`. -/
def Data.hasViolations (d : Data) : Prop :=
  ∃ r, 0 < d.Violations r

/-- `rule1`: one point is more than 3 standard deviations from the mean. -/
noncomputable def Data.rule1 (d : Data) (s : ℝ) : Data × Bool :=
  if d.stats.standardDeviation = 0 then (d, false)
  else (d, if |s - d.stats.mean| > d.stats.threeDeviations then true else false)

/-- `rule2`: nine (or more) points in a row on the same side of the mean. -/
noncomputable def Data.rule2 (d : Data) (s : ℝ) : Data × Bool :=
  let c : ℤ :=
    if s > d.stats.mean then
      if d.rule2Count > 0 then d.rule2Count + 1 else 1
    else if s < d.stats.mean then
      if d.rule2Count < 0 then d.rule2Count - 1 else -1
    else 0
  ({ d with rule2Count := c }, decide ((9 : ℤ) ≤ |c|))

/-- `rule3`: six (or more) points in a row continually increasing/decreasing. -/
noncomputable def Data.rule3 (d : Data) (s : ℝ) : Data × Bool :=
  match d.rule3PreviousSample with
  | none => ({ d with rule3PreviousSample := some s, rule3Count := 0 }, false)
  | some prev =>
    let c : ℤ :=
      if s > prev then
        if d.rule3Count > 0 then d.rule3Count + 1 else 1
      else if s < prev then
        if d.rule3Count < 0 then d.rule3Count - 1 else -1
      else 0
    ({ d with rule3Count := c, rule3PreviousSample := some s }, decide ((6 : ℤ) ≤ |c|))

/-- `rule4`: fourteen (or more) points in a row alternate in direction. -/
noncomputable def Data.rule4 (d : Data) (s : ℝ) : Data × Bool :=
  match d.rule4PreviousSample with
  | none =>
    ({ d with rule4PreviousSample := some s, rule4PreviousDirection := "=", rule4Count := 0 },
      false)
  | some prev =>
    if s = prev then
      ({ d with rule4PreviousSample := some s, rule4PreviousDirection := "=", rule4Count := 0 },
        false)
    else
      let dir := if s ≤ prev then "<" else ">"
      let c : ℤ := if dir = d.rule4PreviousDirection then 0 else d.rule4Count + 1
      ({ d with rule4PreviousSample := some s, rule4PreviousDirection := dir, rule4Count := c },
        decide ((14 : ℤ) ≤ |c|))

/-- `rule5`: at least 2 of 3 points in a row more than 2 standard deviations
from the mean in the same direction. -/
noncomputable def Data.rule5 (d : Data) (s : ℝ) : Data × Bool :=
  if d.stats.standardDeviation = 0 then (d, false)
  else
    let marker :=
      if |s - d.stats.mean| > d.stats.twoDeviations then
        if s > d.stats.mean then ">" else "<"
      else ""
    let w0 := marker :: d.rule5LastThree
    let w := if w0.length > 3 then w0.dropLast else w0
    let above := w.countP (fun e => e = ">")
    let below := w.countP (fun e => e = "<")
    ({ d with rule5LastThree := w }, decide (above ≥ 2 ∨ below ≥ 2))

/-- `rule6`: at least 4 of 5 points in a row more than 1 standard deviation
from the mean in the same direction. -/
noncomputable def Data.rule6 (d : Data) (s : ℝ) : Data × Bool :=
  if d.stats.standardDeviation = 0 then (d, false)
  else
    let marker :=
      if |s - d.stats.mean| > d.stats.standardDeviation then
        if s > d.stats.mean then ">" else "<"
      else ""
    let w0 := marker :: d.rule6LastFive
    let w := if w0.length > 5 then w0.dropLast else w0
    let above := w.countP (fun e => e = ">")
    let below := w.countP (fun e => e = "<")
    ({ d with rule6LastFive := w }, decide (above ≥ 4 ∨ below ≥ 4))

/-- `rule7`: fifteen points in a row all within 1 standard deviation of the
mean (with the flat-line case removed). -/
noncomputable def Data.rule7 (d : Data) (s : ℝ) : Data × Bool :=
  if d.stats.standardDeviation = 0 then (d, false)
  else if s = d.stats.mean then ({ d with rule7Count := 0 }, false)
  else
    let c : ℤ :=
      if |s - d.stats.mean| ≤ d.stats.standardDeviation then d.rule7Count + 1 else 0
    ({ d with rule7Count := c }, decide ((15 : ℤ) ≤ c))

/-- `rule8`: eight points in a row, none within 1 standard deviation of the
mean. -/
noncomputable def Data.rule8 (d : Data) (s : ℝ) : Data × Bool :=
  if d.stats.standardDeviation = 0 then (d, false)
  else
    let c : ℤ :=
      if |s - d.stats.mean| > d.stats.standardDeviation then d.rule8Count + 1 else 0
    ({ d with rule8Count := c }, decide ((8 : ℤ) ≤ c))

/-- Dispatch a rule tag to its evaluation function (the `f` field of Go's
`Rule` struct). -/
noncomputable def evalRule : RuleId → Data → ℝ → Data × Bool
  | .rule1 => Data.rule1
  | .rule2 => Data.rule2
  | .rule3 => Data.rule3
  | .rule4 => Data.rule4
  | .rule5 => Data.rule5
  | .rule6 => Data.rule6
  | .rule7 => Data.rule7
  | .rule8 => Data.rule8

/-- One iteration of the rule loop in `Data.evaluate`: run the rule, record
the per-rule boolean, and on a violation bump the tally for that rule name. -/
noncomputable def evalStep (v : ℝ) (acc : Data × List (String × Bool)) (r : RuleId) :
    Data × List (String × Bool) :=
  let p := evalRule r acc.1 v
  let d2 :=
    if p.2 then
      { p.1 with
        Violations := Function.update p.1.Violations r.name (p.1.Violations r.name + 1) }
    else p.1
  (d2, acc.2 ++ [(r.name, p.2)])

/-- `Data.evaluate`: push the sample onto the recent-sample window (evicting
the back when over `MaxSamples`), then run every active rule in order. -/
noncomputable def Data.evaluate (d : Data) (s : Sample) : Data × List (String × Bool) :=
  let w0 := s :: d.ViolationsData
  let w := if w0.length > MaxSamples then w0.dropLast else w0
  d.Rules.foldl (evalStep s.val) ({ d with ViolationsData := w }, [])

/-- `Data.AddSample`: route to rule evaluation when the baseline is ready,
otherwise to baseline accumulation (returning Go's `nil` map as `none`). -/
noncomputable def Data.AddSample (d : Data) (s : Sample) : Data × Option (List (String × Bool)) :=
  if d.stats.ready then
    let p := d.evaluate s
    (p.1, some p.2)
  else
    let p := d.stats.addSample s.val
    ({ d with stats := p.1 }, none)

/-- Sequential delivery of a batch of samples to one evaluator (the
`AddSamples` helper used by the tests and the poller loop), collecting each
call's returned result map. -/
noncomputable def Data.AddSamples (d : Data) (ss : List Sample) :
    Data × List (Option (List (String × Bool))) :=
  ss.foldl
    (fun acc s =>
      let p := acc.1.AddSample s
      (p.1, acc.2 ++ [p.2]))
    (d, [])

/-! ### Concrete data used by the repository's tests -/

/-- The baseline standard deviation of the repository's standard ten-sample
baseline: the sample standard deviation of `6,7,8,9,10,10,11,12,13,14`. -/
noncomputable def sigma0 : ℝ := Real.sqrt (20 / 3)

/-- The ten samples establishing the standard test baseline (sample size 10,
mean 10). -/
noncomputable def statSamples : List Sample :=
  [⟨100000, 6⟩, ⟨101000, 7⟩, ⟨102000, 8⟩, ⟨103000, 9⟩, ⟨104000, 10⟩,
   ⟨105000, 10⟩, ⟨106000, 11⟩, ⟨107000, 12⟩, ⟨108000, 13⟩, ⟨109000, 14⟩]

/-- The statistics state reached after feeding `statSamples` to a fresh
`newStatistics 10`. -/
noncomputable def baseStats : statistics :=
  { ready := true
    sampleSize := 10
    numSamples := 10
    values := [6, 7, 8, 9, 10, 10, 11, 12, 13, 14]
    mean := 10
    standardDeviation := sigma0
    twoDeviations := 2 * sigma0
    threeDeviations := 3 * sigma0 }

/-- The evaluator state after the standard ten-sample baseline. -/
noncomputable def dBase : Data :=
  { NewData "test-metric" 10 none with stats := baseStats }

/-- The rule-2 test scenario: `9, 11, 10`, then nine consecutive `11`s,
then `8`. -/
noncomputable def r2Samples : List Sample :=
  [⟨200000, 9⟩, ⟨201000, 11⟩, ⟨202000, 10⟩, ⟨203000, 11⟩, ⟨204000, 11⟩,
   ⟨205000, 11⟩, ⟨206000, 11⟩, ⟨207000, 11⟩, ⟨208000, 11⟩, ⟨209000, 11⟩,
   ⟨210000, 11⟩, ⟨211000, 11⟩, ⟨212000, 8⟩]

/-- The rule-8 test scenario: eight alternating out-of-band samples. -/
noncomputable def r8Samples : List Sample :=
  [⟨200000, 7⟩, ⟨201000, 13⟩, ⟨202000, 7⟩, ⟨203000, 13⟩, ⟨204000, 7⟩,
   ⟨205000, 13⟩, ⟨206000, 7⟩, ⟨207000, 13⟩]

/-- A concrete post-baseline evaluator with a benign rational baseline
(mean 0, standard deviation 1), used to instantiate general theorems. -/
noncomputable def testData : Data :=
  { NewData "witness-metric" 10 none with
    stats :=
      { ready := true
        sampleSize := 10
        numSamples := 10
        values := List.replicate 10 0
        mean := 0
        standardDeviation := 1
        twoDeviations := 2
        threeDeviations := 3 } }

/-- A concrete post-baseline evaluator whose baseline has zero variance. -/
noncomputable def testDataZeroDev : Data :=
  { NewData "witness-metric" 10 none with
    stats :=
      { ready := true
        sampleSize := 10
        numSamples := 10
        values := List.replicate 10 5
        mean := 5
        standardDeviation := 0
        twoDeviations := 0
        threeDeviations := 0 } }

/-- The per-sample result row in which no rule reports a violation. -/
def allFalseRow : List (String × Bool) :=
  [("Rule1", false), ("Rule2", false), ("Rule3", false), ("Rule4", false),
   ("Rule5", false), ("Rule6", false), ("Rule7", false), ("Rule8", false)]

/-- The per-sample result row in which exactly Rule2 reports a violation. -/
def r2Row : List (String × Bool) :=
  [("Rule1", false), ("Rule2", true), ("Rule3", false), ("Rule4", false),
   ("Rule5", false), ("Rule6", false), ("Rule7", false), ("Rule8", false)]

/-- The per-sample result row in which exactly Rule8 reports a violation. -/
def r8Row : List (String × Bool) :=
  [("Rule1", false), ("Rule2", false), ("Rule3", false), ("Rule4", false),
   ("Rule5", false), ("Rule6", false), ("Rule7", false), ("Rule8", true)]

/-! ### Helper lemmas: rule evaluation touches only its own state block -/

theorem evalRule_stats (r : RuleId) (d : Data) (v : ℝ) :
    ((evalRule r d v).1).stats = d.stats := by
  cases r <;>
    simp only [evalRule, Data.rule1, Data.rule2, Data.rule3, Data.rule4, Data.rule5,
      Data.rule6, Data.rule7, Data.rule8] <;>
    (repeat' split) <;> rfl

theorem evalRule_Violations (r : RuleId) (d : Data) (v : ℝ) :
    ((evalRule r d v).1).Violations = d.Violations := by
  cases r <;>
    simp only [evalRule, Data.rule1, Data.rule2, Data.rule3, Data.rule4, Data.rule5,
      Data.rule6, Data.rule7, Data.rule8] <;>
    (repeat' split) <;> rfl

theorem evalRule_ViolationsData (r : RuleId) (d : Data) (v : ℝ) :
    ((evalRule r d v).1).ViolationsData = d.ViolationsData := by
  cases r <;>
    simp only [evalRule, Data.rule1, Data.rule2, Data.rule3, Data.rule4, Data.rule5,
      Data.rule6, Data.rule7, Data.rule8] <;>
    (repeat' split) <;> rfl

theorem evalRule_Rules (r : RuleId) (d : Data) (v : ℝ) :
    ((evalRule r d v).1).Rules = d.Rules := by
  cases r <;>
    simp only [evalRule, Data.rule1, Data.rule2, Data.rule3, Data.rule4, Data.rule5,
      Data.rule6, Data.rule7, Data.rule8] <;>
    (repeat' split) <;> rfl

/-! ### Numeric facts about the standard test baseline deviation -/

theorem sigma0_lb : 2.58198 < sigma0 := by
  rw [sigma0, Real.lt_sqrt (by norm_num)]
  norm_num

theorem sigma0_ub : sigma0 < 2.582 := by
  rw [sigma0, Real.sqrt_lt' (by norm_num)]
  norm_num

theorem sigma0_pos : 0 < sigma0 :=
  lt_trans (by norm_num) sigma0_lb

theorem sigma0_ne_zero : sigma0 ≠ 0 :=
  ne_of_gt sigma0_pos

/-- Feeding the ten standard samples to a fresh `newStatistics 10` produces
exactly `baseStats`. -/
theorem statistics_baseline_run :
    statSamples.foldl (fun st s => (st.addSample s.val).1) (newStatistics 10) = baseStats := by
  simp only [statSamples, newStatistics, List.foldl, statistics.addSample]
  norm_num [List.set, statMean, statStdDev, baseStats, sigma0]

theorem sigma0_eq_zero_iff : ¬ (sigma0 = 0) := sigma0_ne_zero

theorem one_gt_three_sigma0 : ¬ ((1:ℝ) > 3 * sigma0) := by nlinarith [sigma0_lb]

theorem one_gt_two_sigma0 : ¬ ((1:ℝ) > 2 * sigma0) := by nlinarith [sigma0_lb]

theorem one_gt_sigma0 : ¬ ((1:ℝ) > sigma0) := by nlinarith [sigma0_lb]

theorem one_le_sigma0 : ((1:ℝ) ≤ sigma0) := by nlinarith [sigma0_lb]

theorem zero_gt_three_sigma0 : ¬ ((0:ℝ) > 3 * sigma0) := by nlinarith [sigma0_lb]

theorem zero_gt_two_sigma0 : ¬ ((0:ℝ) > 2 * sigma0) := by nlinarith [sigma0_lb]

theorem zero_gt_sigma0 : ¬ ((0:ℝ) > sigma0) := by nlinarith [sigma0_lb]

theorem abs_two_real : |(2:ℝ)| = 2 := abs_of_nonneg (by norm_num)

theorem two_gt_three_sigma0 : ¬ ((2:ℝ) > 3 * sigma0) := by nlinarith [sigma0_lb]

theorem two_gt_two_sigma0 : ¬ ((2:ℝ) > 2 * sigma0) := by nlinarith [sigma0_lb]

theorem two_gt_sigma0 : ¬ ((2:ℝ) > sigma0) := by nlinarith [sigma0_lb]

theorem two_le_sigma0 : ((2:ℝ) ≤ sigma0) := by nlinarith [sigma0_lb]

theorem abs_three_real : |(3:ℝ)| = 3 := abs_of_nonneg (by norm_num)

theorem three_gt_three_sigma0 : ¬ ((3:ℝ) > 3 * sigma0) := by nlinarith [sigma0_lb]

theorem three_gt_two_sigma0 : ¬ ((3:ℝ) > 2 * sigma0) := by nlinarith [sigma0_lb]

theorem three_gt_sigma0 : ((3:ℝ) > sigma0) := by nlinarith [sigma0_ub]

theorem three_le_sigma0 : ¬ ((3:ℝ) ≤ sigma0) := by nlinarith [sigma0_ub]

theorem sigma0_lt_three : sigma0 < 3 := by nlinarith [sigma0_ub]

theorem three_le_two_sigma0 : (3:ℝ) ≤ 2 * sigma0 := by nlinarith [sigma0_lb]

theorem one_le_two_sigma0 : (1:ℝ) ≤ 2 * sigma0 := by nlinarith [sigma0_lb]

theorem one_le_three_sigma0 : (1:ℝ) ≤ 3 * sigma0 := by nlinarith [sigma0_lb]

theorem two_le_two_sigma0 : (2:ℝ) ≤ 2 * sigma0 := by nlinarith [sigma0_lb]

theorem two_le_three_sigma0 : (2:ℝ) ≤ 3 * sigma0 := by nlinarith [sigma0_lb]

theorem zero_le_sigma0 : (0:ℝ) ≤ sigma0 := le_of_lt sigma0_pos

theorem sigma0_lt_one : ¬ (sigma0 < 1) := by nlinarith [sigma0_lb]

theorem sigma0_lt_three_halves : ¬ (sigma0 < 3 / 2) := by nlinarith [sigma0_lb]

theorem two_sigma0_lt_three : ¬ (2 * sigma0 < 3) := by nlinarith [sigma0_lb]

theorem three_sigma0_lt_three : ¬ (3 * sigma0 < 3) := by nlinarith [sigma0_lb]

theorem empty_ne_gtMark : ¬ (("" : String) = ">") := by decide

theorem empty_ne_ltMark : ¬ (("" : String) = "<") := by decide

theorem gtMark_ne_ltMark : ¬ ((">" : String) = "<") := by decide

theorem ltMark_ne_gtMark : ¬ (("<" : String) = ">") := by decide

theorem gtMark_ne_eqMark : ¬ ((">" : String) = "=") := by decide

theorem ltMark_ne_eqMark : ¬ (("<" : String) = "=") := by decide

/-- Feeding the ten standard samples to a fresh evaluator produces exactly
`dBase` (and each call returns `none`). -/
theorem data_baseline_run :
    (NewData "test-metric" 10 none).AddSamples statSamples =
      (dBase, List.replicate 10 none) := by
  simp only [Data.AddSamples, Data.AddSample, NewData, newStatistics, statSamples,
    List.foldl, statistics.addSample]
  norm_num [List.set, statMean, statStdDev, dBase, baseStats, sigma0, NewData, newStatistics,
    List.replicate]

/-- Full simulation of the rule-2 scenario: thirteen post-baseline samples
`9, 11, 10, 11 ×9, 8` on the standard baseline. Exactly one violation is
reported, by Rule2, on the twelfth sample (the ninth consecutive sample on
the same side of the mean). -/
theorem r2_scenario_run :
    dBase.AddSamples r2Samples =
      ({ dBase with
          Violations := Function.update (fun _ => 0) "Rule2" 1
          ViolationsData :=
            [⟨212000, 8⟩, ⟨211000, 11⟩, ⟨210000, 11⟩, ⟨209000, 11⟩, ⟨208000, 11⟩,
             ⟨207000, 11⟩, ⟨206000, 11⟩, ⟨205000, 11⟩, ⟨204000, 11⟩, ⟨203000, 11⟩,
             ⟨202000, 10⟩, ⟨201000, 11⟩, ⟨200000, 9⟩]
          rule2Count := -1
          rule3Count := -1
          rule3PreviousSample := some 8
          rule4Count := 1
          rule4PreviousSample := some 8
          rule4PreviousDirection := "<"
          rule5LastThree := ["", "", ""]
          rule6LastFive := ["", "", "", "", ""]
          rule7Count := 10
          rule8Count := 0 },
        [some allFalseRow, some allFalseRow, some allFalseRow, some allFalseRow,
         some allFalseRow, some allFalseRow, some allFalseRow, some allFalseRow,
         some allFalseRow, some allFalseRow, some allFalseRow, some r2Row,
         some allFalseRow]) := by
  norm_num [dBase, baseStats, NewData, newStatistics, r2Samples, Data.AddSamples, List.foldl,
    Data.AddSample, Data.evaluate, AllRules, evalStep, evalRule, RuleId.name,
    Data.rule1, Data.rule2, Data.rule3, Data.rule4, Data.rule5, Data.rule6, Data.rule7,
    Data.rule8, MaxSamples, one_gt_three_sigma0, one_gt_two_sigma0, one_gt_sigma0,
    one_le_sigma0, zero_gt_three_sigma0, zero_gt_two_sigma0, zero_gt_sigma0, abs_two_real,
    two_gt_three_sigma0, two_gt_two_sigma0, two_gt_sigma0, two_le_sigma0, sigma0_eq_zero_iff,
    List.countP_cons, List.countP_nil, empty_ne_gtMark, empty_ne_ltMark, gtMark_ne_ltMark,
    ltMark_ne_gtMark, gtMark_ne_eqMark, ltMark_ne_eqMark, allFalseRow, r2Row]

/-- Full simulation of the rule-8 scenario: eight alternating out-of-band
samples `7, 13, 7, 13, 7, 13, 7, 13` on the standard baseline. The first
seven report nothing; the eighth reports exactly one violation, by Rule8. -/
theorem r8_scenario_run :
    dBase.AddSamples r8Samples =
      ({ dBase with
          Violations := Function.update (fun _ => 0) "Rule8" 1
          ViolationsData :=
            [⟨207000, 13⟩, ⟨206000, 7⟩, ⟨205000, 13⟩, ⟨204000, 7⟩, ⟨203000, 13⟩,
             ⟨202000, 7⟩, ⟨201000, 13⟩, ⟨200000, 7⟩]
          rule2Count := 1
          rule3Count := 1
          rule3PreviousSample := some 13
          rule4Count := 7
          rule4PreviousSample := some 13
          rule4PreviousDirection := ">"
          rule5LastThree := ["", "", ""]
          rule6LastFive := [">", "<", ">", "<", ">"]
          rule7Count := 0
          rule8Count := 8 },
        [some allFalseRow, some allFalseRow, some allFalseRow, some allFalseRow,
         some allFalseRow, some allFalseRow, some allFalseRow, some r8Row]) := by
  norm_num [dBase, baseStats, NewData, newStatistics, r8Samples, Data.AddSamples, List.foldl,
    Data.AddSample, Data.evaluate, AllRules, evalStep, evalRule, RuleId.name,
    Data.rule1, Data.rule2, Data.rule3, Data.rule4, Data.rule5, Data.rule6, Data.rule7,
    Data.rule8, MaxSamples, abs_three_real, three_gt_three_sigma0, three_gt_two_sigma0,
    three_gt_sigma0, three_le_sigma0, sigma0_lt_three, three_le_two_sigma0, one_le_sigma0,
    one_le_two_sigma0, one_le_three_sigma0, zero_le_sigma0, sigma0_lt_one,
    sigma0_lt_three_halves, two_sigma0_lt_three, three_sigma0_lt_three, sigma0_eq_zero_iff,
    List.countP_cons, List.countP_nil, empty_ne_gtMark, empty_ne_ltMark, gtMark_ne_ltMark,
    ltMark_ne_gtMark, gtMark_ne_eqMark, ltMark_ne_eqMark, allFalseRow, r8Row]

/-! ### Structural lemmas about the evaluation fold -/

theorem evalStep_preserves_stats (v : ℝ) (acc : Data × List (String × Bool)) (r : RuleId) :
    ((evalStep v acc r).1).stats = acc.1.stats := by
  unfold evalStep
  by_cases h : (evalRule r acc.1 v).2 <;> simp [h, evalRule_stats]

theorem evalStep_preserves_window (v : ℝ) (acc : Data × List (String × Bool)) (r : RuleId) :
    ((evalStep v acc r).1).ViolationsData = acc.1.ViolationsData := by
  unfold evalStep
  by_cases h : (evalRule r acc.1 v).2 <;> simp [h, evalRule_ViolationsData]

theorem foldl_evalStep_preserves_stats (v : ℝ) (rs : List RuleId)
    (acc : Data × List (String × Bool)) :
    ((rs.foldl (evalStep v) acc).1).stats = acc.1.stats := by
  induction rs generalizing acc with
  | nil => rfl
  | cons r rs ih => rw [List.foldl_cons, ih, evalStep_preserves_stats]

theorem foldl_evalStep_preserves_window (v : ℝ) (rs : List RuleId)
    (acc : Data × List (String × Bool)) :
    ((rs.foldl (evalStep v) acc).1).ViolationsData = acc.1.ViolationsData := by
  induction rs generalizing acc with
  | nil => rfl
  | cons r rs ih => rw [List.foldl_cons, ih, evalStep_preserves_window]

theorem AddSample_ready_preserves_stats (d : Data) (s : Sample) (h : d.stats.ready = true) :
    ((d.AddSample s).1).stats = d.stats := by
  simp only [Data.AddSample, h, if_true]
  rw [Data.evaluate]
  simp only [foldl_evalStep_preserves_stats]

theorem AddSample_ready_window_eq (d : Data) (s : Sample) (h : d.stats.ready = true) :
    ((d.AddSample s).1).ViolationsData =
      (if (s :: d.ViolationsData).length > MaxSamples then (s :: d.ViolationsData).dropLast
       else s :: d.ViolationsData) := by
  simp only [Data.AddSample, h, if_true]
  rw [Data.evaluate]
  simp only [foldl_evalStep_preserves_window]

theorem window_head (d : Data) (s : Sample) (h : d.stats.ready = true) :
    ((d.AddSample s).1).ViolationsData.head? = some s := by
  rw [AddSample_ready_window_eq d s h]
  split
  · rename_i hlen
    cases hvd : d.ViolationsData with
    | nil => rw [hvd] at hlen; simp [MaxSamples] at hlen
    | cons a l => rw [List.dropLast_cons₂]; rfl
  · rfl

theorem window_len (d : Data) (s : Sample) (h : d.stats.ready = true)
    (hlen : d.ViolationsData.length ≤ MaxSamples) :
    ((d.AddSample s).1).ViolationsData.length ≤ MaxSamples := by
  rw [AddSample_ready_window_eq d s h]
  split
  · rename_i hgt
    rw [List.length_dropLast]
    simp only [List.length_cons] at hgt ⊢
    omega
  · rename_i hle
    simp only [List.length_cons] at hle ⊢
    omega

theorem AddSamples_fst_ignores_acc (ss : List Sample) (d : Data)
    (acc acc2 : List (Option (List (String × Bool)))) :
    (ss.foldl (fun x s => ((x.1.AddSample s).1, x.2 ++ [(x.1.AddSample s).2])) (d, acc)).1 =
      (ss.foldl (fun x s => ((x.1.AddSample s).1, x.2 ++ [(x.1.AddSample s).2])) (d, acc2)).1 := by
  induction ss generalizing d acc acc2 with
  | nil => rfl
  | cons s ss ih => simp only [List.foldl_cons]; exact ih _ _ _

theorem AddSamples_snd_acc (ss : List Sample) (d : Data)
    (acc : List (Option (List (String × Bool)))) :
    (ss.foldl (fun x s => ((x.1.AddSample s).1, x.2 ++ [(x.1.AddSample s).2])) (d, acc)).2 =
      acc ++
        (ss.foldl (fun x s => ((x.1.AddSample s).1, x.2 ++ [(x.1.AddSample s).2])) (d, [])).2 := by
  induction ss generalizing d acc with
  | nil => simp
  | cons s ss ih =>
    simp only [List.foldl_cons, List.nil_append]
    rw [ih (d.AddSample s).1 (acc ++ [(d.AddSample s).2]),
      ih (d.AddSample s).1 [(d.AddSample s).2]]
    simp

theorem AddSamples_cons (d : Data) (s : Sample) (ss : List Sample) :
    d.AddSamples (s :: ss) =
      (((d.AddSample s).1.AddSamples ss).1,
        (d.AddSample s).2 :: ((d.AddSample s).1.AddSamples ss).2) := by
  have h1 : d.AddSamples (s :: ss) =
      ss.foldl (fun x s => ((x.1.AddSample s).1, x.2 ++ [(x.1.AddSample s).2]))
        ((d.AddSample s).1, [(d.AddSample s).2]) := rfl
  have h2 : (d.AddSample s).1.AddSamples ss =
      ss.foldl (fun x s => ((x.1.AddSample s).1, x.2 ++ [(x.1.AddSample s).2]))
        ((d.AddSample s).1, []) := rfl
  rw [h1, h2]
  refine Prod.ext ?_ ?_
  · exact AddSamples_fst_ignores_acc ss _ _ _
  · rw [AddSamples_snd_acc]
    rfl

theorem AddSamples_ready_stats (d : Data) (ss : List Sample) (h : d.stats.ready = true) :
    ((d.AddSamples ss).1).stats = d.stats := by
  induction ss generalizing d with
  | nil => rfl
  | cons s ss ih =>
    rw [AddSamples_cons]
    have h1 := AddSample_ready_preserves_stats d s h
    have h2 : ((d.AddSample s).1).stats.ready = true := by rw [h1]; exact h
    rw [show ((((d.AddSample s).1.AddSamples ss).1,
        (d.AddSample s).2 :: ((d.AddSample s).1.AddSamples ss).2)).1 =
        (((d.AddSample s).1).AddSamples ss).1 from rfl]
    rw [ih ((d.AddSample s).1) h2, h1]

theorem addSample_stats_not_ready (st : statistics) (v : ℝ) (h : st.ready = false) :
    (st.addSample v).2 = (st.addSample v).1.ready ∧
    (st.addSample v).1.numSamples = st.numSamples + 1 ∧
    (st.addSample v).1.sampleSize = st.sampleSize ∧
    ((st.addSample v).1.ready = true ↔ st.numSamples + 1 = st.sampleSize) := by
  by_cases hn : st.numSamples + 1 = st.sampleSize <;>
    simp [statistics.addSample, h, hn]

theorem AddSample_not_ready (d : Data) (s : Sample) (h : d.stats.ready = false) :
    d.AddSample s = ({ d with stats := (d.stats.addSample s.val).1 }, none) := by
  simp only [Data.AddSample, h]
  rfl

theorem AddSamples_not_ready (d : Data) (ss : List Sample)
    (hr : d.stats.ready = false)
    (hlen : d.stats.numSamples + ss.length ≤ d.stats.sampleSize) :
    (∀ o ∈ (d.AddSamples ss).2, o = none) ∧
    ((d.AddSamples ss).1).Violations = d.Violations := by
  induction ss generalizing d with
  | nil => exact ⟨by intro o ho; simp [Data.AddSamples] at ho, rfl⟩
  | cons s ss ih =>
    rw [AddSamples_cons]
    have hstep := AddSample_not_ready d s hr
    obtain ⟨p1, p2, p3, p4⟩ := addSample_stats_not_ready d.stats s.val hr
    by_cases hn : d.stats.numSamples + 1 = d.stats.sampleSize
    · have hss : ss = [] := by
        cases ss with
        | nil => rfl
        | cons s2 ss2 =>
          exfalso
          simp only [List.length_cons] at hlen
          omega
      subst hss
      refine ⟨?_, ?_⟩
      · intro o ho
        simp only [Data.AddSamples, List.foldl_nil, hstep] at ho
        simpa using ho
      · simp [Data.AddSamples, hstep]
    · have hr2 : ((d.AddSample s).1).stats.ready = false := by
        rw [hstep]
        simp only []
        rw [← Bool.not_eq_true]
        intro hcon
        exact hn (p4.1 hcon)
      have hlen2 : ((d.AddSample s).1).stats.numSamples + ss.length ≤
          ((d.AddSample s).1).stats.sampleSize := by
        rw [hstep]
        simp only []
        rw [p2, p3]
        simp only [List.length_cons] at hlen
        omega
      obtain ⟨ih1, ih2⟩ := ih ((d.AddSample s).1) hr2 hlen2
      refine ⟨?_, ?_⟩
      · intro o ho
        simp only [List.mem_cons] at ho
        rcases ho with ho1 | ho2
        · rw [ho1, hstep]
        · exact ih1 o ho2
      · rw [show (((d.AddSample s).1.AddSamples ss).1,
            (d.AddSample s).2 :: ((d.AddSample s).1.AddSamples ss).2).1 =
            ((d.AddSample s).1.AddSamples ss).1 from rfl]
        rw [ih2, hstep]

theorem foldl_evalStep_spec (v : ℝ) (rs : List RuleId) (d0 : Data)
    (out0 : List (String × Bool)) (hnd : (rs.map RuleId.name).Nodup) :
    ∃ tail : List (String × Bool),
      (rs.foldl (evalStep v) (d0, out0)).2 = out0 ++ tail ∧
      tail.map Prod.fst = rs.map RuleId.name ∧
      (∀ q ∈ tail, ((rs.foldl (evalStep v) (d0, out0)).1).Violations q.1 =
          d0.Violations q.1 + (if q.2 = true then 1 else 0)) ∧
      (∀ nm, nm ∉ rs.map RuleId.name →
        ((rs.foldl (evalStep v) (d0, out0)).1).Violations nm = d0.Violations nm) := by
  induction rs generalizing d0 out0 with
  | nil =>
    refine ⟨[], by simp, rfl, by simp, fun nm _ => rfl⟩
  | cons r rs ih =>
    rw [List.map_cons, List.nodup_cons] at hnd
    obtain ⟨hr, hnd⟩ := hnd
    set b := (evalRule r d0 v).2 with hb
    have hstep : evalStep v (d0, out0) r =
        (if b then
            { (evalRule r d0 v).1 with
              Violations :=
                Function.update ((evalRule r d0 v).1).Violations r.name
                  (((evalRule r d0 v).1).Violations r.name + 1) }
          else (evalRule r d0 v).1,
          out0 ++ [(r.name, b)]) := rfl
    have hviol : ∀ nm, ((evalStep v (d0, out0) r).1).Violations nm =
        d0.Violations nm + (if nm = r.name ∧ b = true then 1 else 0) := by
      intro nm
      rw [hstep]
      by_cases hbv : b = true
      · simp only [hbv, if_true]
        by_cases hnm : nm = r.name
        · subst hnm
          simp [Function.update_same, evalRule_Violations]
        · simp [Function.update_noteq hnm, evalRule_Violations, hnm]
      · simp only [Bool.not_eq_true] at hbv
        simp [hbv, evalRule_Violations]
    rw [List.foldl_cons]
    obtain ⟨tail, e1, e2, e3, e4⟩ := ih ((evalStep v (d0, out0) r).1)
      ((evalStep v (d0, out0) r).2) hnd
    have hsnd : (evalStep v (d0, out0) r).2 = out0 ++ [(r.name, b)] := by rw [hstep]
    refine ⟨(r.name, b) :: tail, ?_, ?_, ?_, ?_⟩
    · rw [show (evalStep v (d0, out0) r) =
          ((evalStep v (d0, out0) r).1, (evalStep v (d0, out0) r).2) from rfl] at e1 ⊢
      rw [e1, hsnd]
      simp
    · simp [e2]
    · intro q hq
      rcases List.mem_cons.1 hq with hq1 | hq2
      · subst hq1
        have hmem : (r.name, b).1 ∉ tail.map Prod.fst := by
          rw [e2]; exact hr
        have h5 := e4 (r.name) (by rw [← e2]; exact hmem)
        rw [h5, hviol r.name]
        simp
      · have hq1 : q.1 ∈ tail.map Prod.fst := List.mem_map_of_mem Prod.fst hq2
        have hqne : q.1 ≠ r.name := by
          rw [e2] at hq1
          intro hcon
          rw [hcon] at hq1
          exact hr hq1
        rw [e3 q hq2, hviol q.1]
        simp [hqne]
    · intro nm hnm
      simp only [List.map_cons, List.mem_cons] at hnm
      push_neg at hnm
      obtain ⟨hnm1, hnm2⟩ := hnm
      rw [e4 nm hnm2, hviol nm]
      simp [hnm1]

theorem rule2_mechanism (d : Data) (v : ℝ) :
    ((d.rule2 v).1).rule2Count =
      (if v = d.stats.mean then 0
       else if v > d.stats.mean then
         (if d.rule2Count > 0 then d.rule2Count + 1 else 1)
       else
         (if d.rule2Count < 0 then d.rule2Count - 1 else -1)) ∧
    (d.rule2 v).2 = decide ((9:ℤ) ≤ |((d.rule2 v).1).rule2Count|) := by
  constructor
  · rcases lt_trichotomy v d.stats.mean with hv | hv | hv
    · simp [Data.rule2, hv, ne_of_lt hv, not_lt.2 (le_of_lt hv)]
    · simp [Data.rule2, hv, lt_irrefl]
    · simp [Data.rule2, hv, (ne_of_lt hv).symm, not_lt.2 (le_of_lt hv)]
  · rfl

theorem rule8_mechanism (d : Data) (v : ℝ) (h : d.stats.standardDeviation ≠ 0) :
    ((d.rule8 v).1).rule8Count =
      (if |v - d.stats.mean| > d.stats.standardDeviation then d.rule8Count + 1 else 0) ∧
    (d.rule8 v).2 = decide ((8:ℤ) ≤ ((d.rule8 v).1).rule8Count) := by
  constructor
  · simp [Data.rule8, h]
  · simp [Data.rule8, h]

/-! ### Claim theorems -/

/-- C1: the spec requires `Clear()` to reset an evaluator with a ready
baseline to a state observably identical to a freshly constructed one
(ready flag false, next `AddSample` re-entering baseline accumulation).
The code does not do this: `statistics.clear` never resets `ready`, so after
`Clear()` the ready flag stays `true`, differs from a fresh evaluator, and
the very next `AddSample` is routed to rule evaluation (returns a result
map) against the zeroed-out baseline instead of re-entering accumulation.
Demonstrated at sample size 2 with baseline samples 4 and 6, then `Clear`,
then sample 5. -/
theorem Clear_keeps_ready_flag :
    (((((NewData "m" 2 none).AddSample ⟨0, 4⟩).1).AddSample ⟨1, 6⟩).1).stats.ready = true ∧
    ((((((NewData "m" 2 none).AddSample ⟨0, 4⟩).1).AddSample ⟨1, 6⟩).1).Clear).stats.ready =
      true ∧
    ((((((NewData "m" 2 none).AddSample ⟨0, 4⟩).1).AddSample ⟨1, 6⟩).1).Clear).stats.ready ≠
      (NewData "m" 2 none).stats.ready ∧
    (((((((NewData "m" 2 none).AddSample ⟨0, 4⟩).1).AddSample ⟨1, 6⟩).1).Clear).AddSample
        ⟨2, 5⟩).2.isSome = true := by
  norm_num [NewData, newStatistics, Data.AddSample, statistics.addSample, List.set,
    Data.Clear, statistics.clear]

/-- C2: for a freshly constructed evaluator, as long as the baseline has not
reached its configured sample size, every `AddSample` call returns no
per-rule result set (`none`) and the cumulative `Violations` tally stays
empty. -/
theorem AddSample_no_violation_before_baseline (m : String) (n : ℕ)
    (rules : Option (List RuleId)) (ss : List Sample) (h : ss.length ≤ n) :
    (∀ o ∈ ((NewData m n rules).AddSamples ss).2, o = none) ∧
    (∀ nm, (((NewData m n rules).AddSamples ss).1).Violations nm = 0) := by
  have h0 := AddSamples_not_ready (NewData m n rules) ss rfl
    (by simpa [NewData, newStatistics] using h)
  exact ⟨h0.1, fun nm => by rw [h0.2]; rfl⟩

theorem AddSample_no_violation_before_baseline_witness :
    ([(⟨0, 1⟩ : Sample)].length ≤ 2) ∧
    ((∀ o ∈ ((NewData "w" 2 none).AddSamples [⟨0, 1⟩]).2, o = none) ∧
     (∀ nm, (((NewData "w" 2 none).AddSamples [⟨0, 1⟩]).1).Violations nm = 0)) :=
  ⟨by norm_num, AddSample_no_violation_before_baseline "w" 2 none [⟨0, 1⟩] (by norm_num)⟩

/-- C3: whenever the baseline standard deviation is zero, every
deviation-relative rule (R1, R5, R6, R7, R8) returns `false` (no violation)
for every input value. -/
theorem zero_stddev_rules_never_violate (d : Data) (v : ℝ)
    (h : d.stats.standardDeviation = 0) :
    (d.rule1 v).2 = false ∧ (d.rule5 v).2 = false ∧ (d.rule6 v).2 = false ∧
    (d.rule7 v).2 = false ∧ (d.rule8 v).2 = false := by
  refine ⟨?_, ?_, ?_, ?_, ?_⟩ <;>
    simp [Data.rule1, Data.rule5, Data.rule6, Data.rule7, Data.rule8, h]

theorem zero_stddev_rules_never_violate_witness :
    testDataZeroDev.stats.standardDeviation = 0 ∧
    ((testDataZeroDev.rule1 7).2 = false ∧ (testDataZeroDev.rule5 7).2 = false ∧
     (testDataZeroDev.rule6 7).2 = false ∧ (testDataZeroDev.rule7 7).2 = false ∧
     (testDataZeroDev.rule8 7).2 = false) :=
  ⟨rfl, zero_stddev_rules_never_violate testDataZeroDev 7 rfl⟩

/-- C4: on a post-baseline sample, `AddSample` returns a result map with
exactly one boolean entry per active rule, in the fixed rule-list order
(so every rule is evaluated, none is skipped), and for each rule the
cumulative `Violations` tally entry grows by exactly 1 when that rule's
result is `true` and is unchanged when it is `false`; names not belonging
to any active rule are untouched. -/
theorem AddSample_evaluates_every_rule (d : Data) (s : Sample)
    (hready : d.stats.ready = true) (hnd : (d.Rules.map RuleId.name).Nodup) :
    ∃ out : List (String × Bool),
      (d.AddSample s).2 = some out ∧
      out.map Prod.fst = d.Rules.map RuleId.name ∧
      (∀ q ∈ out, ((d.AddSample s).1).Violations q.1 =
        d.Violations q.1 + (if q.2 = true then 1 else 0)) ∧
      (∀ nm, nm ∉ d.Rules.map RuleId.name →
        ((d.AddSample s).1).Violations nm = d.Violations nm) := by
  have hAS : d.AddSample s = ((d.evaluate s).1, some (d.evaluate s).2) := by
    simp only [Data.AddSample, hready, if_true]
  have heval : d.evaluate s = d.Rules.foldl (evalStep s.val)
      ({ d with ViolationsData :=
          if (s :: d.ViolationsData).length > MaxSamples then (s :: d.ViolationsData).dropLast
          else s :: d.ViolationsData }, []) := rfl
  obtain ⟨tail, e1, e2, e3, e4⟩ := foldl_evalStep_spec s.val d.Rules
    { d with ViolationsData :=
        if (s :: d.ViolationsData).length > MaxSamples then (s :: d.ViolationsData).dropLast
        else s :: d.ViolationsData } [] hnd
  refine ⟨tail, ?_, e2, ?_, ?_⟩
  · rw [hAS, heval, e1]
    simp
  · intro q hq
    rw [hAS, heval]
    exact e3 q hq
  · intro nm hnm
    rw [hAS, heval]
    exact e4 nm hnm

theorem AddSample_evaluates_every_rule_witness :
    (testData.stats.ready = true ∧ (testData.Rules.map RuleId.name).Nodup) ∧
    (∃ out : List (String × Bool),
      (testData.AddSample ⟨0, 1⟩).2 = some out ∧
      out.map Prod.fst = testData.Rules.map RuleId.name ∧
      (∀ q ∈ out, ((testData.AddSample ⟨0, 1⟩).1).Violations q.1 =
        testData.Violations q.1 + (if q.2 = true then 1 else 0)) ∧
      (∀ nm, nm ∉ testData.Rules.map RuleId.name →
        ((testData.AddSample ⟨0, 1⟩).1).Violations nm = testData.Violations nm)) :=
  ⟨⟨rfl, by decide⟩, AddSample_evaluates_every_rule testData ⟨0, 1⟩ rfl (by decide)⟩

/-- C5: rule R2 keeps a signed run-length counter against the baseline mean:
it resets to 0 on exact equality with the mean, increments along the current
run's side, and restarts at ±1 when the side flips; it reports a violation
exactly when the counter's absolute value is at least 9. On the standard
ten-sample baseline (mean 10), the thirteen samples `9, 11, 10`, nine
consecutive `11`s, then `8` produce exactly one violation, for Rule2 only,
on the ninth consecutive same-side sample (the twelfth post-baseline
sample). -/
theorem rule2_run_length_and_scenario :
    (∀ (d : Data) (v : ℝ),
      ((d.rule2 v).1).rule2Count =
        (if v = d.stats.mean then 0
         else if v > d.stats.mean then
           (if d.rule2Count > 0 then d.rule2Count + 1 else 1)
         else
           (if d.rule2Count < 0 then d.rule2Count - 1 else -1)) ∧
      (d.rule2 v).2 = decide ((9:ℤ) ≤ |((d.rule2 v).1).rule2Count|)) ∧
    ((NewData "test-metric" 10 none).AddSamples statSamples).1 = dBase ∧
    (dBase.AddSamples r2Samples).2 =
      [some allFalseRow, some allFalseRow, some allFalseRow, some allFalseRow,
       some allFalseRow, some allFalseRow, some allFalseRow, some allFalseRow,
       some allFalseRow, some allFalseRow, some allFalseRow, some r2Row,
       some allFalseRow] ∧
    ((dBase.AddSamples r2Samples).1).Violations "Rule2" = 1 ∧
    ((dBase.AddSamples r2Samples).1).Violations "Rule1" = 0 ∧
    ((dBase.AddSamples r2Samples).1).Violations "Rule3" = 0 ∧
    ((dBase.AddSamples r2Samples).1).Violations "Rule4" = 0 ∧
    ((dBase.AddSamples r2Samples).1).Violations "Rule5" = 0 ∧
    ((dBase.AddSamples r2Samples).1).Violations "Rule6" = 0 ∧
    ((dBase.AddSamples r2Samples).1).Violations "Rule7" = 0 ∧
    ((dBase.AddSamples r2Samples).1).Violations "Rule8" = 0 := by
  refine ⟨rule2_mechanism, by rw [data_baseline_run], ?_, ?_, ?_, ?_, ?_, ?_, ?_, ?_, ?_⟩ <;>
    rw [r2_scenario_run] <;>
    simp [Function.update]

/-- C6: rule R8 keeps a consecutive-beyond-1σ counter: it resets to 0
whenever a sample is within one standard deviation of the mean and
increments otherwise, and it reports a violation exactly when the counter
reaches 8, with no requirement that the out-of-band samples lie on both
sides of the mean. On the standard ten-sample baseline, seven alternating
`7.0/13.0` samples report nothing and the eighth consecutive out-of-band
sample triggers exactly one violation, for Rule8 only. -/
theorem rule8_counter_and_scenario :
    (∀ (d : Data) (v : ℝ), d.stats.standardDeviation ≠ 0 →
      ((d.rule8 v).1).rule8Count =
        (if |v - d.stats.mean| > d.stats.standardDeviation then d.rule8Count + 1 else 0) ∧
      (d.rule8 v).2 = decide ((8:ℤ) ≤ ((d.rule8 v).1).rule8Count)) ∧
    ((NewData "test-metric" 10 none).AddSamples statSamples).1 = dBase ∧
    (dBase.AddSamples r8Samples).2 =
      [some allFalseRow, some allFalseRow, some allFalseRow, some allFalseRow,
       some allFalseRow, some allFalseRow, some allFalseRow, some r8Row] ∧
    ((dBase.AddSamples r8Samples).1).Violations "Rule8" = 1 ∧
    ((dBase.AddSamples r8Samples).1).Violations "Rule1" = 0 ∧
    ((dBase.AddSamples r8Samples).1).Violations "Rule2" = 0 ∧
    ((dBase.AddSamples r8Samples).1).Violations "Rule3" = 0 ∧
    ((dBase.AddSamples r8Samples).1).Violations "Rule4" = 0 ∧
    ((dBase.AddSamples r8Samples).1).Violations "Rule5" = 0 ∧
    ((dBase.AddSamples r8Samples).1).Violations "Rule6" = 0 ∧
    ((dBase.AddSamples r8Samples).1).Violations "Rule7" = 0 := by
  refine ⟨rule8_mechanism, by rw [data_baseline_run], ?_, ?_, ?_, ?_, ?_, ?_, ?_, ?_, ?_⟩ <;>
    rw [r8_scenario_run] <;>
    simp [Function.update]

theorem rule8_counter_and_scenario_witness :
    (testData.stats.standardDeviation ≠ 0) ∧
    (((testData.rule8 5).1).rule8Count =
      (if |(5:ℝ) - testData.stats.mean| > testData.stats.standardDeviation
       then testData.rule8Count + 1 else 0) ∧
     (testData.rule8 5).2 = decide ((8:ℤ) ≤ ((testData.rule8 5).1).rule8Count)) :=
  ⟨by norm_num [testData, NewData, newStatistics],
    rule8_counter_and_scenario.1 testData 5 (by norm_num [testData, NewData, newStatistics])⟩

/-- C7: once the baseline's ready flag is true, no sequence of further
`AddSample` calls ever changes the five derived baseline fields: mean,
standard deviation, twoDeviations, threeDeviations and the ready flag are
all unchanged after any batch of post-ready samples. -/
theorem baseline_frozen_once_ready (d : Data) (ss : List Sample)
    (h : d.stats.ready = true) :
    ((d.AddSamples ss).1).stats.mean = d.stats.mean ∧
    ((d.AddSamples ss).1).stats.standardDeviation = d.stats.standardDeviation ∧
    ((d.AddSamples ss).1).stats.twoDeviations = d.stats.twoDeviations ∧
    ((d.AddSamples ss).1).stats.threeDeviations = d.stats.threeDeviations ∧
    ((d.AddSamples ss).1).stats.ready = true := by
  rw [AddSamples_ready_stats d ss h]
  exact ⟨rfl, rfl, rfl, rfl, h⟩

theorem baseline_frozen_once_ready_witness :
    testData.stats.ready = true ∧
    (((testData.AddSamples [⟨0, 1⟩]).1).stats.mean = testData.stats.mean ∧
     ((testData.AddSamples [⟨0, 1⟩]).1).stats.standardDeviation =
       testData.stats.standardDeviation ∧
     ((testData.AddSamples [⟨0, 1⟩]).1).stats.twoDeviations = testData.stats.twoDeviations ∧
     ((testData.AddSamples [⟨0, 1⟩]).1).stats.threeDeviations =
       testData.stats.threeDeviations ∧
     ((testData.AddSamples [⟨0, 1⟩]).1).stats.ready = true) :=
  ⟨rfl, baseline_frozen_once_ready testData [⟨0, 1⟩] rfl⟩

/-- C8: every post-baseline `AddSample` pushes the new sample onto the front
of the recent-sample window and, exactly when the pushed length exceeds
`MaxSamples` = 15, drops the back (oldest) element; consequently the window
length never exceeds 15 and the newest sample is at the front. -/
theorem recent_sample_window_bounded (d : Data) (s : Sample)
    (hready : d.stats.ready = true) (hlen : d.ViolationsData.length ≤ MaxSamples) :
    ((d.AddSample s).1).ViolationsData =
      (if (s :: d.ViolationsData).length > MaxSamples then (s :: d.ViolationsData).dropLast
       else s :: d.ViolationsData) ∧
    ((d.AddSample s).1).ViolationsData.length ≤ MaxSamples ∧
    ((d.AddSample s).1).ViolationsData.head? = some s :=
  ⟨AddSample_ready_window_eq d s hready, window_len d s hready hlen,
    window_head d s hready⟩

theorem recent_sample_window_bounded_witness :
    (testData.stats.ready = true ∧ testData.ViolationsData.length ≤ MaxSamples) ∧
    (((testData.AddSample ⟨0, 1⟩).1).ViolationsData =
      (if ((⟨0, 1⟩ : Sample) :: testData.ViolationsData).length > MaxSamples
       then ((⟨0, 1⟩ : Sample) :: testData.ViolationsData).dropLast
       else (⟨0, 1⟩ : Sample) :: testData.ViolationsData) ∧
     ((testData.AddSample ⟨0, 1⟩).1).ViolationsData.length ≤ MaxSamples ∧
     ((testData.AddSample ⟨0, 1⟩).1).ViolationsData.head? = some ⟨0, 1⟩) :=
  ⟨⟨rfl, by norm_num [testData, NewData, newStatistics, MaxSamples]⟩,
    recent_sample_window_bounded testData ⟨0, 1⟩ rfl
      (by norm_num [testData, NewData, newStatistics, MaxSamples])⟩

/-- C9: feeding the ten values `6,7,8,9,10,10,11,12,13,14` to a baseline of
sample size 10 yields a ready baseline with mean exactly 10, standard
deviation exactly `sqrt (60/9)` (the sample standard deviation), within
`10⁻⁵` of 2.58199, and two/three-deviation thresholds equal to 2 and 3
times the standard deviation. -/
theorem baseline_mean_and_stddev :
    (statSamples.foldl (fun st s => (st.addSample s.val).1) (newStatistics 10)).ready = true ∧
    (statSamples.foldl (fun st s => (st.addSample s.val).1) (newStatistics 10)).mean = 10 ∧
    (statSamples.foldl (fun st s => (st.addSample s.val).1)
        (newStatistics 10)).standardDeviation = Real.sqrt (60 / 9) ∧
    |(statSamples.foldl (fun st s => (st.addSample s.val).1)
        (newStatistics 10)).standardDeviation - 2.58199| < 1 / 100000 ∧
    (statSamples.foldl (fun st s => (st.addSample s.val).1) (newStatistics 10)).twoDeviations =
      2 * (statSamples.foldl (fun st s => (st.addSample s.val).1)
        (newStatistics 10)).standardDeviation ∧
    (statSamples.foldl (fun st s => (st.addSample s.val).1)
        (newStatistics 10)).threeDeviations =
      3 * (statSamples.foldl (fun st s => (st.addSample s.val).1)
        (newStatistics 10)).standardDeviation := by
  rw [statistics_baseline_run]
  refine ⟨rfl, rfl, ?_, ?_, rfl, rfl⟩
  · show sigma0 = Real.sqrt (60 / 9)
    rw [sigma0]
    norm_num
  · have h1 := sigma0_lb
    have h2 := sigma0_ub
    show |sigma0 - 2.58199| < 1 / 100000
    rw [abs_sub_lt_iff]
    constructor <;> nlinarith

/-- C10: the sample that completes the baseline is consumed by the
statistics component only: `AddSample` returns `none` for it (not an
all-false map), it changes no rule counter, window or tally, the ready
flag becomes true, and any subsequent `AddSample` returns a result map
(the first rule evaluation happens on sample N+1). -/
theorem baseline_completing_sample_silent (d : Data) (s : Sample)
    (hr : d.stats.ready = false)
    (hn : d.stats.numSamples + 1 = d.stats.sampleSize) :
    (d.AddSample s).2 = none ∧
    ((d.AddSample s).1).stats.ready = true ∧
    ((d.AddSample s).1).Violations = d.Violations ∧
    ((d.AddSample s).1).ViolationsData = d.ViolationsData ∧
    ((d.AddSample s).1).rule2Count = d.rule2Count ∧
    ((d.AddSample s).1).rule3Count = d.rule3Count ∧
    ((d.AddSample s).1).rule3PreviousSample = d.rule3PreviousSample ∧
    ((d.AddSample s).1).rule4Count = d.rule4Count ∧
    ((d.AddSample s).1).rule4PreviousSample = d.rule4PreviousSample ∧
    ((d.AddSample s).1).rule4PreviousDirection = d.rule4PreviousDirection ∧
    ((d.AddSample s).1).rule5LastThree = d.rule5LastThree ∧
    ((d.AddSample s).1).rule6LastFive = d.rule6LastFive ∧
    ((d.AddSample s).1).rule7Count = d.rule7Count ∧
    ((d.AddSample s).1).rule8Count = d.rule8Count ∧
    (∀ s2 : Sample, (((d.AddSample s).1).AddSample s2).2.isSome = true) := by
  have hstep := AddSample_not_ready d s hr
  have hready2 : ((d.AddSample s).1).stats.ready = true := by
    rw [hstep]
    exact (addSample_stats_not_ready d.stats s.val hr).2.2.2.2 hn
  rw [hstep] at hready2 ⊢
  refine ⟨rfl, hready2, rfl, rfl, rfl, rfl, rfl, rfl, rfl, rfl, rfl, rfl, rfl, rfl, ?_⟩
  intro s2
  have hready3 : (d.stats.addSample s.val).1.ready = true := hready2
  simp [Data.AddSample, hready3]

theorem baseline_completing_sample_silent_witness :
    ((((NewData "w" 2 none).AddSample ⟨0, 4⟩).1).stats.ready = false ∧
     (((NewData "w" 2 none).AddSample ⟨0, 4⟩).1).stats.numSamples + 1 =
       (((NewData "w" 2 none).AddSample ⟨0, 4⟩).1).stats.sampleSize) ∧
    (((((NewData "w" 2 none).AddSample ⟨0, 4⟩).1).AddSample ⟨1, 6⟩).2 = none ∧
     (((((NewData "w" 2 none).AddSample ⟨0, 4⟩).1).AddSample ⟨1, 6⟩).1).stats.ready =
       true) := by
  have h1 : (((NewData "w" 2 none).AddSample ⟨0, 4⟩).1).stats.ready = false := by
    norm_num [NewData, newStatistics, Data.AddSample, statistics.addSample, List.set]
  have h2 : (((NewData "w" 2 none).AddSample ⟨0, 4⟩).1).stats.numSamples + 1 =
      (((NewData "w" 2 none).AddSample ⟨0, 4⟩).1).stats.sampleSize := by
    norm_num [NewData, newStatistics, Data.AddSample, statistics.addSample, List.set]
  have h3 := baseline_completing_sample_silent
    (((NewData "w" 2 none).AddSample ⟨0, 4⟩).1) ⟨1, 6⟩ h1 h2
  exact ⟨⟨h1, h2⟩, h3.1, h3.2.1⟩

end Nelson
